import Mathlib

/-!
Verification development for drivers/gpu/drm/drm_gem_vram_helper.c.

The embedding models a `struct drm_gem_vram_object` by the fields the
helper functions read and write: the signed `pin_count` (C `int`), the
unsigned `kmap_use_count` (C `unsigned int`, modelled as `Nat`), the
cached `struct ttm_bo_kmap_obj` (a possibly-NULL virtual address plus the
io-memory flag), and the placement flag words built by
`drm_gem_vram_placement`.  Calls into the TTM layer (`ttm_bo_validate`,
`ttm_bo_kmap`, `ttm_bo_reserve`) are modelled by explicit result
parameters: an `Int` return code for validate/reserve (negative = error)
and an `Except Int (Nat × Bool)` for `ttm_bo_kmap` (on success the
virtual address it stores into the kmap object together with its
io-memory nature).
-/

/-- The cached CPU mapping, C `struct ttm_bo_kmap_obj`: `virtual = none`
models a NULL `kmap->virtual` pointer; `iomem` is the io-memory nature
reported by `ttm_kmap_obj_virtual`. -/
structure TtmBoKmapObj where
  virtual : Option Nat
  iomem : Bool
deriving DecidableEq

/-- The fields of C `struct drm_gem_vram_object` used by the helpers. -/
structure DrmGemVramObject where
  pin_count : Int
  kmap_use_count : Nat
  kmap : TtmBoKmapObj
  placements : List Nat
deriving DecidableEq

/-- TTM placement flag TTM_PL_FLAG_SYSTEM (1 << 0). -/
def TTM_PL_FLAG_SYSTEM : Nat := 1

/-- TTM placement flag TTM_PL_FLAG_VRAM (1 << 2). -/
def TTM_PL_FLAG_VRAM : Nat := 4

/-- TTM caching flag TTM_PL_FLAG_CACHED (1 << 16). -/
def TTM_PL_FLAG_CACHED : Nat := 65536

/-- TTM caching flag TTM_PL_FLAG_UNCACHED (1 << 17). -/
def TTM_PL_FLAG_UNCACHED : Nat := 131072

/-- TTM caching flag TTM_PL_FLAG_WC (1 << 18). -/
def TTM_PL_FLAG_WC : Nat := 262144

/-- TTM caching mask TTM_PL_MASK_CACHING. -/
def TTM_PL_MASK_CACHING : Nat :=
  TTM_PL_FLAG_CACHED ||| TTM_PL_FLAG_UNCACHED ||| TTM_PL_FLAG_WC

/-- TTM flag TTM_PL_FLAG_NO_EVICT (1 << 21). -/
def TTM_PL_FLAG_NO_EVICT : Nat := 2097152

/-- Bit complement of TTM_PL_FLAG_NO_EVICT on a 64-bit `unsigned long`. -/
def TTM_PL_NO_EVICT_CLEAR_MASK : Nat := (2 ^ 64 - 1) ^^^ TTM_PL_FLAG_NO_EVICT

/-- C `drm_gem_vram_placement`: rebuilds the placement list from the
requested flag bits (VRAM entry first, then SYSTEM; SYSTEM alone when no
bit is set). -/
def drm_gem_vram_placement (gbo : DrmGemVramObject) (pl_flag : Nat) :
    DrmGemVramObject :=
  let cv : List Nat :=
    if pl_flag &&& TTM_PL_FLAG_VRAM ≠ 0 then
      [TTM_PL_FLAG_WC ||| TTM_PL_FLAG_UNCACHED ||| TTM_PL_FLAG_VRAM]
    else []
  let cs : List Nat :=
    if pl_flag &&& TTM_PL_FLAG_SYSTEM ≠ 0 then
      [TTM_PL_MASK_CACHING ||| TTM_PL_FLAG_SYSTEM]
    else []
  let c : List Nat := cv ++ cs
  let c : List Nat :=
    if c = [] then [TTM_PL_MASK_CACHING ||| TTM_PL_FLAG_SYSTEM] else c
  { gbo with placements := c }

/-- Return value of `drm_gem_vram_kmap_locked`: a mapped virtual address,
the NULL "not mapped" answer, or an ERR_PTR-encoded error code. -/
inductive KmapRes where
  | mapped (addr : Nat)
  | notMapped
  | errPtr (code : Int)
deriving DecidableEq

/-- The `out:` tail of C `drm_gem_vram_kmap_locked`: inspect
`kmap->virtual`; when NULL report "not mapped" (writing false through a
non-NULL `is_iomem` pointer), otherwise take a use-count reference and
return the address (reporting the io-memory nature when asked).  The
middle component models what is written through the `is_iomem` out
pointer (`none` = nothing written). -/
def kmapOut (gbo : DrmGemVramObject) (has_is_iomem : Bool) :
    KmapRes × Option Bool × DrmGemVramObject :=
  match gbo.kmap.virtual with
  | none =>
      (KmapRes.notMapped, if has_is_iomem then some false else none, gbo)
  | some addr =>
      (KmapRes.mapped addr,
       if has_is_iomem then some gbo.kmap.iomem else none,
       { gbo with kmap_use_count := gbo.kmap_use_count + 1 })

/-- C `drm_gem_vram_kmap_locked`: `ttm_bo_kmap_res` stands for the result
of the `ttm_bo_kmap` call, performed only when no reference and no stale
mapping exist and `map` is true. -/
def drm_gem_vram_kmap_locked (gbo : DrmGemVramObject) (map : Bool)
    (has_is_iomem : Bool) (ttm_bo_kmap_res : Except Int (Nat × Bool)) :
    KmapRes × Option Bool × DrmGemVramObject :=
  if 0 < gbo.kmap_use_count then
    kmapOut gbo has_is_iomem
  else if gbo.kmap.virtual.isSome || !map then
    kmapOut gbo has_is_iomem
  else
    match ttm_bo_kmap_res with
    | Except.error ret => (KmapRes.errPtr ret, none, gbo)
    | Except.ok (addr, io) =>
        kmapOut { gbo with kmap := { virtual := some addr, iomem := io } }
          has_is_iomem

/-- C `drm_gem_vram_kmap`: reserve the object (result code modelled by
`reserveRet`), run the locked body, unreserve. -/
def drm_gem_vram_kmap (gbo : DrmGemVramObject) (map : Bool)
    (has_is_iomem : Bool) (reserveRet : Int)
    (ttm_bo_kmap_res : Except Int (Nat × Bool)) :
    KmapRes × Option Bool × DrmGemVramObject :=
  if reserveRet ≠ 0 then (KmapRes.errPtr reserveRet, none, gbo)
  else drm_gem_vram_kmap_locked gbo map has_is_iomem ttm_bo_kmap_res

/-- C `drm_gem_vram_kunmap_locked`: WARN and return when the use count is
zero, otherwise decrement; the mapping itself is deliberately left in
place.  The boolean reports whether the WARN fired. -/
def drm_gem_vram_kunmap_locked (gbo : DrmGemVramObject) :
    Bool × DrmGemVramObject :=
  if gbo.kmap_use_count = 0 then (true, gbo)
  else (false, { gbo with kmap_use_count := gbo.kmap_use_count - 1 })

/-- C `drm_gem_vram_bo_driver_move_notify`: WARN and return when the use
count is non-zero; otherwise destroy a stale mapping if one exists.  The
boolean reports whether the WARN fired. -/
def drm_gem_vram_bo_driver_move_notify (gbo : DrmGemVramObject) :
    Bool × DrmGemVramObject :=
  if gbo.kmap_use_count ≠ 0 then (true, gbo)
  else
    match gbo.kmap.virtual with
    | none => (false, gbo)
    | some _ =>
        (false, { gbo with kmap := { virtual := none, iomem := gbo.kmap.iomem } })

/-- C `drm_gem_vram_pin_locked`: with a live pin just increment; otherwise
optionally rebuild placements from `pl_flag`, set NO_EVICT on every
placement, validate (result modelled by `validateRet`), and on success
increment the pin count. -/
def drm_gem_vram_pin_locked (gbo : DrmGemVramObject) (pl_flag : Nat)
    (validateRet : Int) : Int × DrmGemVramObject :=
  if gbo.pin_count ≠ 0 then
    (0, { gbo with pin_count := gbo.pin_count + 1 })
  else
    let g1 :=
      if pl_flag ≠ 0 then drm_gem_vram_placement gbo pl_flag else gbo
    let g2 :=
      { g1 with placements :=
          g1.placements.map (fun f => f ||| TTM_PL_FLAG_NO_EVICT) }
    if validateRet < 0 then (validateRet, g2)
    else (0, { g2 with pin_count := g2.pin_count + 1 })

/-- C `drm_gem_vram_unpin_locked`: WARN and return 0 on a zero pin count;
otherwise decrement, and when the count reaches zero clear NO_EVICT from
every placement and validate.  The boolean reports whether the WARN
fired. -/
def drm_gem_vram_unpin_locked (gbo : DrmGemVramObject) (validateRet : Int) :
    Bool × Int × DrmGemVramObject :=
  if gbo.pin_count = 0 then (true, 0, gbo)
  else
    let g1 := { gbo with pin_count := gbo.pin_count - 1 }
    if g1.pin_count ≠ 0 then (false, 0, g1)
    else
      let g2 :=
        { g1 with placements :=
            g1.placements.map (fun f => f &&& TTM_PL_NO_EVICT_CLEAR_MASK) }
      if validateRet < 0 then (false, validateRet, g2)
      else (false, 0, g2)

/-- C `drm_gem_vram_object_vmap`: reserve, pin at the current location
(`pl_flag = 0`), establish a kernel mapping; on a kmap error unwind the
pin before returning the error.  A NULL return from the locked kmap body
is not an ERR_PTR, so it is passed through as a non-error (`ok none`). -/
def drm_gem_vram_object_vmap (gbo : DrmGemVramObject) (reserveRet : Int)
    (pinValidateRet : Int) (ttm_bo_kmap_res : Except Int (Nat × Bool))
    (unpinValidateRet : Int) :
    Except Int (Option Nat) × DrmGemVramObject :=
  if reserveRet ≠ 0 then (Except.error reserveRet, gbo)
  else
    match drm_gem_vram_pin_locked gbo 0 pinValidateRet with
    | (ret, g1) =>
      if ret ≠ 0 then (Except.error ret, g1)
      else
        match drm_gem_vram_kmap_locked g1 true false ttm_bo_kmap_res with
        | (KmapRes.errPtr code, _, g2) =>
            match drm_gem_vram_unpin_locked g2 unpinValidateRet with
            | (_, _, g3) => (Except.error code, g3)
        | (KmapRes.mapped addr, _, g2) => (Except.ok (some addr), g2)
        | (KmapRes.notMapped, _, g2) => (Except.ok none, g2)

/-- C `drm_gem_vram_object_vunmap`: reserve (WARN and bail out on
failure), then kunmap followed by unpin. -/
def drm_gem_vram_object_vunmap (gbo : DrmGemVramObject) (reserveRet : Int)
    (unpinValidateRet : Int) : DrmGemVramObject :=
  if reserveRet ≠ 0 then gbo
  else
    match drm_gem_vram_kunmap_locked gbo with
    | (_, g1) =>
      match drm_gem_vram_unpin_locked g1 unpinValidateRet with
      | (_, _, g2) => g2

/-- C `drm_gem_vram_cleanup`: the pair of WARN_ON conditions evaluated at
destruction, in source order: `WARN_ON(gbo->kmap_use_count)` and
`WARN_ON(gbo->kmap.virtual)`. -/
def drm_gem_vram_cleanup_warns (gbo : DrmGemVramObject) : Bool × Bool :=
  (gbo.kmap_use_count != 0, gbo.kmap.virtual.isSome)

/-- Destruction checks as the spec describes them: an empty `pin_count`
and an empty mapping cache are both required invariants, with a
diagnostic raised on any violation.  This definition follows the spec
text, for comparison with `drm_gem_vram_cleanup_warns`. -/
def cleanup_required_checks_spec (gbo : DrmGemVramObject) : Bool :=
  (gbo.pin_count != 0) || (gbo.kmap_use_count != 0) || gbo.kmap.virtual.isSome

/-- Page size constant PAGE_SIZE. -/
def PAGE_SIZE : Nat := 4096

/-- C kernel `roundup(x, y)`: `((x + y - 1) / y) * y`. -/
def roundup (x y : Nat) : Nat := ((x + y - 1) / y) * y

/-- Pitch computation of `drm_gem_vram_fill_create_dumb`:
`args->width * ((args->bpp + 7) / 8)` carried out in 32-bit unsigned C
arithmetic (the struct fields are u32 and the product wraps mod 2^32
before widening to `size_t`). -/
def dumbPitch (width bpp : Nat) : Nat :=
  (width * (((bpp + 7) % 2 ^ 32) / 8)) % 2 ^ 32

/-- Size computation of `drm_gem_vram_fill_create_dumb`: the pitch times
the height (64-bit `size_t`, no wrap for u32 inputs), rounded up to a
page multiple. -/
def dumbSize (width height bpp : Nat) : Nat :=
  roundup (dumbPitch width bpp * height) PAGE_SIZE

/-- C `drm_gem_vram_fill_create_dumb`: compute pitch and page-rounded
size, reject a zero size with -EINVAL, then create the object and its
handle (both modelled by result parameters; `handleRes` carries the
handle value on success) and return the filled (handle, pitch, size). -/
def drm_gem_vram_fill_create_dumb (width height bpp : Nat)
    (createRes : Except Int Unit) (handleRes : Except Int Nat) :
    Except Int (Nat × Nat × Nat) :=
  let pitch := dumbPitch width bpp
  let size := roundup (pitch * height) PAGE_SIZE
  if size = 0 then Except.error (-22)
  else
    match createRes with
    | Except.error e => Except.error e
    | Except.ok _ =>
      match handleRes with
      | Except.error e => Except.error e
      | Except.ok handle => Except.ok (handle, pitch, size)

/-- Dumb-buffer arithmetic as the spec states it, in unbounded
arithmetic: `pitch = width * ceil(bpp/8)`,
`size = round_up(pitch * height, page_size)`, failing with
InvalidArgument exactly when the size is 0.  This definition follows the
spec text, for comparison with `drm_gem_vram_fill_create_dumb`. -/
def fill_create_dumb_spec (width height bpp : Nat) :
    Except Int (Nat × Nat) :=
  let pitch := width * ((bpp + 7) / 8)
  let size := roundup (pitch * height) PAGE_SIZE
  if size = 0 then Except.error (-22) else Except.ok (pitch, size)

/-- One locked operation on a buffer object, with the TTM results it
consumes supplied as data. -/
inductive VramOp where
  | pinOp (pl_flag : Nat) (validateRet : Int)
  | unpinOp (validateRet : Int)
  | kmapOp (map : Bool) (has_is_iomem : Bool)
      (ttm_bo_kmap_res : Except Int (Nat × Bool))
  | kunmapOp
  | moveNotifyOp

/-- State effect of one operation on the buffer object. -/
def runVramOp (gbo : DrmGemVramObject) : VramOp → DrmGemVramObject
  | VramOp.pinOp pl v => (drm_gem_vram_pin_locked gbo pl v).2
  | VramOp.unpinOp v => (drm_gem_vram_unpin_locked gbo v).2.2
  | VramOp.kmapOp m p k => (drm_gem_vram_kmap_locked gbo m p k).2.2
  | VramOp.kunmapOp => (drm_gem_vram_kunmap_locked gbo).2
  | VramOp.moveNotifyOp => (drm_gem_vram_bo_driver_move_notify gbo).2

/-- State effect of a sequence of operations. -/
def runVramOps (gbo : DrmGemVramObject) : List VramOp → DrmGemVramObject
  | [] => gbo
  | op :: ops => runVramOps (runVramOp gbo op) ops

/-- The mapping-cache invariant: a live use count implies a present
virtual address. -/
def mappingCacheInv (gbo : DrmGemVramObject) : Prop :=
  0 < gbo.kmap_use_count → gbo.kmap.virtual.isSome

/-- Concrete state: fresh object, nothing pinned or mapped. -/
def gZero : DrmGemVramObject :=
  { pin_count := 0, kmap_use_count := 0,
    kmap := { virtual := none, iomem := false }, placements := [] }

/-- Concrete state: pinned once, no mapping. -/
def gPinned1 : DrmGemVramObject :=
  { pin_count := 1, kmap_use_count := 0,
    kmap := { virtual := none, iomem := false }, placements := [] }

/-- Concrete state: unpinned, stale mapping at address 42 with use count
zero (lazy release has happened). -/
def gStale : DrmGemVramObject :=
  { pin_count := 0, kmap_use_count := 0,
    kmap := { virtual := some 42, iomem := false }, placements := [] }

/-- Concrete state: pinned once, mapping at address 42 with one live
reference. -/
def gLive : DrmGemVramObject :=
  { pin_count := 1, kmap_use_count := 1,
    kmap := { virtual := some 42, iomem := false }, placements := [] }

/-- Rebuilding placements changes no other field. -/
theorem placement_preserves_counts (g : DrmGemVramObject) (pl : Nat) :
    (drm_gem_vram_placement g pl).pin_count = g.pin_count ∧
    (drm_gem_vram_placement g pl).kmap_use_count = g.kmap_use_count ∧
    (drm_gem_vram_placement g pl).kmap = g.kmap :=
  ⟨rfl, rfl, rfl⟩

/-- Pinning leaves the mapping cache alone and either increments the pin
count (success, or already pinned) or leaves it unchanged (validation
failure). -/
theorem pin_locked_state (g : DrmGemVramObject) (pl : Nat) (v : Int) :
    (drm_gem_vram_pin_locked g pl v).2.kmap_use_count = g.kmap_use_count ∧
    (drm_gem_vram_pin_locked g pl v).2.kmap = g.kmap ∧
    ((drm_gem_vram_pin_locked g pl v).2.pin_count = g.pin_count ∨
     (drm_gem_vram_pin_locked g pl v).2.pin_count = g.pin_count + 1) := by
  unfold drm_gem_vram_pin_locked
  by_cases h : g.pin_count ≠ 0 <;>
    by_cases hpl : pl ≠ 0 <;>
      by_cases hv : v < 0 <;>
        simp [h, hpl, hv, drm_gem_vram_placement]

/-- A pin that returns 0 has incremented the pin count by one. -/
theorem pin_locked_success (g : DrmGemVramObject) (pl : Nat) (v : Int)
    (h : (drm_gem_vram_pin_locked g pl v).1 = 0) :
    (drm_gem_vram_pin_locked g pl v).2.pin_count = g.pin_count + 1 := by
  unfold drm_gem_vram_pin_locked at *
  by_cases hp : g.pin_count ≠ 0 <;>
    by_cases hpl : pl ≠ 0 <;>
      by_cases hv : v < 0 <;>
        simp [hp, hpl, hv, drm_gem_vram_placement] at h ⊢ <;> omega

/-- Unpinning leaves the mapping cache alone; the pin count is unchanged
on the zero-count WARN path and decremented otherwise. -/
theorem unpin_locked_state (g : DrmGemVramObject) (v : Int) :
    (drm_gem_vram_unpin_locked g v).2.2.kmap_use_count = g.kmap_use_count ∧
    (drm_gem_vram_unpin_locked g v).2.2.kmap = g.kmap ∧
    (drm_gem_vram_unpin_locked g v).2.2.pin_count =
      (if g.pin_count = 0 then g.pin_count else g.pin_count - 1) := by
  unfold drm_gem_vram_unpin_locked
  by_cases h : g.pin_count = 0 <;>
    by_cases h1 : g.pin_count - 1 ≠ 0 <;>
      by_cases hv : v < 0 <;>
        simp [h, h1, hv]

/-- The `out:` tail leaves the pin count, the placements and the cached
mapping object untouched; the use count either stays (not mapped) or
grows by one. -/
theorem kmapOut_state (g : DrmGemVramObject) (p : Bool) :
    (kmapOut g p).2.2.pin_count = g.pin_count ∧
    (kmapOut g p).2.2.placements = g.placements ∧
    (kmapOut g p).2.2.kmap = g.kmap ∧
    ((kmapOut g p).2.2.kmap_use_count = g.kmap_use_count ∨
     (kmapOut g p).2.2.kmap_use_count = g.kmap_use_count + 1) := by
  unfold kmapOut
  cases hv : g.kmap.virtual <;> simp [hv]

/-- The locked kmap body never touches the pin count or the placements. -/
theorem kmap_locked_frame (g : DrmGemVramObject) (m p : Bool)
    (k : Except Int (Nat × Bool)) :
    (drm_gem_vram_kmap_locked g m p k).2.2.pin_count = g.pin_count ∧
    (drm_gem_vram_kmap_locked g m p k).2.2.placements = g.placements := by
  unfold drm_gem_vram_kmap_locked kmapOut
  by_cases h : 0 < g.kmap_use_count <;>
    by_cases h2 : g.kmap.virtual.isSome || !m <;>
      cases k <;>
        cases hv : g.kmap.virtual <;>
          simp_all

/-- A locked kmap that answers `mapped a` has taken one use-count
reference and its state holds address `a`. -/
theorem kmap_locked_mapped (g : DrmGemVramObject) (m p : Bool)
    (k : Except Int (Nat × Bool)) (a : Nat)
    (h : (drm_gem_vram_kmap_locked g m p k).1 = KmapRes.mapped a) :
    (drm_gem_vram_kmap_locked g m p k).2.2.kmap_use_count =
      g.kmap_use_count + 1 ∧
    (drm_gem_vram_kmap_locked g m p k).2.2.kmap.virtual = some a := by
  unfold drm_gem_vram_kmap_locked kmapOut at *
  by_cases h1 : 0 < g.kmap_use_count <;>
    by_cases h2 : g.kmap.virtual.isSome || !m <;>
      cases k <;>
        cases hv : g.kmap.virtual <;>
          simp_all

/-- A locked kmap that answers with an ERR_PTR left the state exactly as
it was. -/
theorem kmap_locked_err (g : DrmGemVramObject) (m p : Bool)
    (k : Except Int (Nat × Bool)) (e : Int)
    (h : (drm_gem_vram_kmap_locked g m p k).1 = KmapRes.errPtr e) :
    (drm_gem_vram_kmap_locked g m p k).2.2 = g := by
  unfold drm_gem_vram_kmap_locked kmapOut at *
  by_cases h1 : 0 < g.kmap_use_count <;>
    by_cases h2 : g.kmap.virtual.isSome || !m <;>
      cases k <;>
        cases hv : g.kmap.virtual <;>
          simp_all

/-- The locked kunmap body never touches the pin count, the placements or
the cached mapping object, and never increments the use count. -/
theorem kunmap_locked_state (g : DrmGemVramObject) :
    (drm_gem_vram_kunmap_locked g).2.pin_count = g.pin_count ∧
    (drm_gem_vram_kunmap_locked g).2.placements = g.placements ∧
    (drm_gem_vram_kunmap_locked g).2.kmap = g.kmap ∧
    (drm_gem_vram_kunmap_locked g).2.kmap_use_count =
      (if g.kmap_use_count = 0 then 0 else g.kmap_use_count - 1) := by
  unfold drm_gem_vram_kunmap_locked
  by_cases h : g.kmap_use_count = 0 <;> simp [h]

/-- Move-notify never touches the pin count, the placements or the use
count. -/
theorem move_notify_frame (g : DrmGemVramObject) :
    (drm_gem_vram_bo_driver_move_notify g).2.pin_count = g.pin_count ∧
    (drm_gem_vram_bo_driver_move_notify g).2.placements = g.placements ∧
    (drm_gem_vram_bo_driver_move_notify g).2.kmap_use_count =
      g.kmap_use_count := by
  unfold drm_gem_vram_bo_driver_move_notify
  by_cases h : g.kmap_use_count ≠ 0 <;>
    cases hv : g.kmap.virtual <;> simp [h, hv]

/-- Every single locked operation keeps a non-negative pin count
non-negative. -/
theorem runVramOp_pin_nonneg (g : DrmGemVramObject) (op : VramOp)
    (h : 0 ≤ g.pin_count) : 0 ≤ (runVramOp g op).pin_count := by
  cases op with
  | pinOp pl v =>
      rcases (pin_locked_state g pl v).2.2 with h1 | h1 <;>
        simp [runVramOp, h1] <;> omega
  | unpinOp v =>
      have h1 := (unpin_locked_state g v).2.2
      by_cases h0 : g.pin_count = 0 <;>
        simp only [runVramOp, h1, h0, if_pos, if_neg, ite_true, ite_false] <;>
          omega
  | kmapOp m p k =>
      have h1 := (kmap_locked_frame g m p k).1
      simpa [runVramOp, h1] using h
  | kunmapOp =>
      have h1 := (kunmap_locked_state g).1
      simpa [runVramOp, h1] using h
  | moveNotifyOp =>
      have h1 := (move_notify_frame g).1
      simpa [runVramOp, h1] using h

/-- A non-negative pin count is preserved by every operation sequence. -/
theorem runVramOps_pin_nonneg :
    ∀ (ops : List VramOp) (g : DrmGemVramObject), 0 ≤ g.pin_count →
      0 ≤ (runVramOps g ops).pin_count
  | [], _, h => h
  | op :: ops, g, h =>
      runVramOps_pin_nonneg ops (runVramOp g op) (runVramOp_pin_nonneg g op h)

/-- Two states agreeing on the mapping-cache fields satisfy the invariant
together. -/
theorem mappingCacheInv_congr (g1 g2 : DrmGemVramObject)
    (hu : g1.kmap_use_count = g2.kmap_use_count) (hk : g1.kmap = g2.kmap)
    (h : mappingCacheInv g2) : mappingCacheInv g1 := by
  intro hpos
  rw [hk]
  exact h (hu ▸ hpos)

/-- The `out:` tail preserves the mapping-cache invariant. -/
theorem kmapOut_mapInv (g : DrmGemVramObject) (p : Bool)
    (h : mappingCacheInv g) : mappingCacheInv (kmapOut g p).2.2 := by
  unfold kmapOut
  cases hv : g.kmap.virtual with
  | none => simpa [hv] using h
  | some a => intro _; simp [hv]

/-- The locked kmap body preserves the mapping-cache invariant. -/
theorem kmap_locked_mapInv (g : DrmGemVramObject) (m p : Bool)
    (k : Except Int (Nat × Bool)) (h : mappingCacheInv g) :
    mappingCacheInv (drm_gem_vram_kmap_locked g m p k).2.2 := by
  unfold drm_gem_vram_kmap_locked
  by_cases h1 : 0 < g.kmap_use_count
  · simpa [h1] using kmapOut_mapInv g p h
  · by_cases h2 : g.kmap.virtual.isSome || !m
    · simpa [h1, h2] using kmapOut_mapInv g p h
    · cases k with
      | error e => simpa [h1, h2] using h
      | ok v =>
          have h3 : mappingCacheInv
              { g with kmap := { virtual := some v.1, iomem := v.2 } } := by
            intro _; simp
          simpa [h1, h2] using
            kmapOut_mapInv
              { g with kmap := { virtual := some v.1, iomem := v.2 } } p h3

/-- The locked kunmap body preserves the mapping-cache invariant. -/
theorem kunmap_locked_mapInv (g : DrmGemVramObject)
    (h : mappingCacheInv g) :
    mappingCacheInv (drm_gem_vram_kunmap_locked g).2 := by
  unfold drm_gem_vram_kunmap_locked
  by_cases h1 : g.kmap_use_count = 0
  · simpa [h1] using h
  · intro hpos
    simp only [h1, if_false]
    exact h (by omega)

/-- Move-notify preserves the mapping-cache invariant: it only destroys
the mapping when the use count is zero. -/
theorem move_notify_mapInv (g : DrmGemVramObject) (h : mappingCacheInv g) :
    mappingCacheInv (drm_gem_vram_bo_driver_move_notify g).2 := by
  unfold drm_gem_vram_bo_driver_move_notify
  by_cases h1 : g.kmap_use_count ≠ 0
  · simpa [h1] using h
  · cases hv : g.kmap.virtual with
    | none => simpa [h1, hv] using h
    | some a =>
        intro hpos
        simp only [h1, hv, if_neg, ite_false] at hpos ⊢
        omega

/-- Every single locked operation preserves the mapping-cache
invariant. -/
theorem runVramOp_mapInv (g : DrmGemVramObject) (op : VramOp)
    (h : mappingCacheInv g) : mappingCacheInv (runVramOp g op) := by
  cases op with
  | pinOp pl v =>
      exact mappingCacheInv_congr _ g (pin_locked_state g pl v).1
        (pin_locked_state g pl v).2.1 h
  | unpinOp v =>
      exact mappingCacheInv_congr _ g (unpin_locked_state g v).1
        (unpin_locked_state g v).2.1 h
  | kmapOp m p k => exact kmap_locked_mapInv g m p k h
  | kunmapOp => exact kunmap_locked_mapInv g h
  | moveNotifyOp => exact move_notify_mapInv g h

/-- The mapping-cache invariant is preserved by every operation
sequence. -/
theorem runVramOps_mapInv :
    ∀ (ops : List VramOp) (g : DrmGemVramObject), mappingCacheInv g →
      mappingCacheInv (runVramOps g ops)
  | [], _, h => h
  | op :: ops, g, h =>
      runVramOps_mapInv ops (runVramOp g op) (runVramOp_mapInv g op h)

/-- A vmap that returns a mapped address has taken exactly one pin
reference and one mapping reference. -/
theorem vmap_ok_state (g : DrmGemVramObject) (pv uv : Int)
    (k : Except Int (Nat × Bool)) (a : Nat)
    (h : (drm_gem_vram_object_vmap g 0 pv k uv).1 = Except.ok (some a)) :
    (drm_gem_vram_object_vmap g 0 pv k uv).2.pin_count = g.pin_count + 1 ∧
    (drm_gem_vram_object_vmap g 0 pv k uv).2.kmap_use_count =
      g.kmap_use_count + 1 := by
  rcases hp : drm_gem_vram_pin_locked g 0 pv with ⟨ret, g1⟩
  rcases hk : drm_gem_vram_kmap_locked g1 true false k with ⟨res, io, g2⟩
  by_cases hr : ret ≠ 0
  · simp [drm_gem_vram_object_vmap, hp, hk, hr] at h
  · cases res with
    | errPtr code =>
        rcases hup : drm_gem_vram_unpin_locked g2 uv with ⟨w2, r2, g3⟩
        simp [drm_gem_vram_object_vmap, hp, hk, hup, hr] at h
    | notMapped =>
        simp [drm_gem_vram_object_vmap, hp, hk, hr] at h
    | mapped b =>
        have hpin : g1.pin_count = g.pin_count + 1 := by
          have h2 := pin_locked_success g 0 pv (by rw [hp]; simpa using hr)
          rwa [hp] at h2
        have huse : g2.kmap_use_count = g1.kmap_use_count + 1 := by
          have h2 := (kmap_locked_mapped g1 true false k b (by rw [hk])).1
          rwa [hk] at h2
        have hframe : g2.pin_count = g1.pin_count := by
          have h2 := (kmap_locked_frame g1 true false k).1
          rwa [hk] at h2
        have huse1 : g1.kmap_use_count = g.kmap_use_count := by
          have h2 := (pin_locked_state g 0 pv).1
          rwa [hp] at h2
        simp [drm_gem_vram_object_vmap, hp, hk, hr, hframe, hpin, huse,
          huse1]

/-- A vunmap on a state with live pin and mapping references releases
exactly one of each. -/
theorem vunmap_counts (g : DrmGemVramObject) (uv : Int)
    (hu : g.kmap_use_count ≠ 0) (hp : g.pin_count ≠ 0) :
    (drm_gem_vram_object_vunmap g 0 uv).pin_count = g.pin_count - 1 ∧
    (drm_gem_vram_object_vunmap g 0 uv).kmap_use_count =
      g.kmap_use_count - 1 := by
  unfold drm_gem_vram_object_vunmap
  rw [if_neg (show ¬ (0 : Int) ≠ 0 by norm_num)]
  rcases hk : drm_gem_vram_kunmap_locked g with ⟨w, g1⟩
  dsimp only
  rcases hup : drm_gem_vram_unpin_locked g1 uv with ⟨w2, r2, g2⟩
  dsimp only
  have hk1 : g1.pin_count = g.pin_count ∧ g1.kmap_use_count =
      g.kmap_use_count - 1 := by
    have h1 := (kunmap_locked_state g).1
    have h2 := (kunmap_locked_state g).2.2.2
    rw [hk] at h1 h2
    exact ⟨h1, by simpa [hu] using h2⟩
  have hup1 : g2.kmap_use_count = g1.kmap_use_count ∧ g2.pin_count =
      g1.pin_count - 1 := by
    have h1 := (unpin_locked_state g1 uv).1
    have h2 := (unpin_locked_state g1 uv).2.2
    rw [hup] at h1 h2
    refine ⟨h1, ?_⟩
    rw [h2, if_neg (by rw [hk1.1]; exact hp)]
  constructor
  · rw [hup1.2, hk1.1]
  · rw [hup1.1, hk1.2]

/-- When the kmap step of vmap fails, the pin taken by vmap is unwound
and the error is returned. -/
theorem vmap_err_unwind (g : DrmGemVramObject) (pv uv e : Int)
    (hp : 0 ≤ g.pin_count) (hpv : 0 ≤ pv) (hu : g.kmap_use_count = 0)
    (hv : g.kmap.virtual = none) :
    (drm_gem_vram_object_vmap g 0 pv (Except.error e) uv).1 =
      Except.error e ∧
    (drm_gem_vram_object_vmap g 0 pv (Except.error e) uv).2.pin_count =
      g.pin_count := by
  by_cases hpc : g.pin_count = 0
  · simp [drm_gem_vram_object_vmap, drm_gem_vram_pin_locked,
      drm_gem_vram_kmap_locked, kmapOut, drm_gem_vram_unpin_locked,
      hpc, hu, hv, show ¬ pv < 0 by omega]
    split <;> rfl
  · simp [drm_gem_vram_object_vmap, drm_gem_vram_pin_locked,
      drm_gem_vram_kmap_locked, kmapOut, drm_gem_vram_unpin_locked,
      hpc, hu, hv, show g.pin_count + 1 ≠ 0 by omega,
      show ¬ g.pin_count + 1 = 0 by omega]

/-- C1 counterexample: on a buffer with `kmap_use_count = 0` and a stale
mapping at address 42, the locked kmap body called with `map = false`
returns the stale address but increments the use count to 1, contradicting
the claim that the ref count stays 0 on the query-only path. -/
theorem C1_kmap_stale_query_counterexample :
    (drm_gem_vram_kmap_locked gStale false false (Except.error (-5))).1 =
      KmapRes.mapped 42 ∧
    (drm_gem_vram_kmap_locked gStale false false
        (Except.error (-5))).2.2.kmap_use_count = 1 := by
  constructor <;> rfl

/-- C1 (amended): for every buffer whose mapping ref count is 0 but which
still holds a stale mapping, a kmap call with `map = false` returns the
existing mapping address and increments the ref count to 1: the query
takes a mapping reference like any other successful kmap. -/
theorem C1_kmap_stale_query_takes_ref (g : DrmGemVramObject) (a : Nat)
    (p : Bool) (k : Except Int (Nat × Bool)) (h0 : g.kmap_use_count = 0)
    (hv : g.kmap.virtual = some a) :
    drm_gem_vram_kmap_locked g false p k =
      (KmapRes.mapped a, if p then some g.kmap.iomem else none,
       { g with kmap_use_count := 1 }) := by
  unfold drm_gem_vram_kmap_locked kmapOut
  simp [h0, hv]

/-- C1 witness: the amended statement evaluated on the concrete stale
state. -/
theorem C1_kmap_stale_query_takes_ref_witness :
    gStale.kmap_use_count = 0 ∧ gStale.kmap.virtual = some 42 ∧
    drm_gem_vram_kmap_locked gStale false true (Except.error (-5)) =
      (KmapRes.mapped 42, some gStale.kmap.iomem,
       { gStale with kmap_use_count := 1 }) :=
  ⟨rfl, rfl,
   C1_kmap_stale_query_takes_ref gStale 42 true (Except.error (-5)) rfl rfl⟩

/-- C2: kunmap never touches the cached mapping; decrementing the use
count to 0 leaves the mapping in place; move-notify returns without
destroying anything when the use count is non-zero (asserted), and
destroys the stale mapping only when the use count is 0. -/
theorem C2_lazy_unmap_deferred_to_move_notify :
    (∀ g : DrmGemVramObject, (drm_gem_vram_kunmap_locked g).2.kmap = g.kmap) ∧
    (∀ g : DrmGemVramObject, g.kmap_use_count = 1 →
        drm_gem_vram_kunmap_locked g =
          (false, { g with kmap_use_count := 0 })) ∧
    (∀ g : DrmGemVramObject, g.kmap_use_count ≠ 0 →
        drm_gem_vram_bo_driver_move_notify g = (true, g)) ∧
    (∀ (g : DrmGemVramObject) (a : Nat), g.kmap_use_count = 0 →
        g.kmap.virtual = some a →
        drm_gem_vram_bo_driver_move_notify g =
          (false,
           { g with kmap := { virtual := none, iomem := g.kmap.iomem } })) := by
  refine ⟨fun g => ?_, fun g h => ?_, fun g h => ?_, fun g a h0 hv => ?_⟩
  · exact (kunmap_locked_state g).2.2.1
  · unfold drm_gem_vram_kunmap_locked
    simp [h]
  · unfold drm_gem_vram_bo_driver_move_notify
    simp [h]
  · unfold drm_gem_vram_bo_driver_move_notify
    simp [h0, hv]

/-- C2 witness: the second, third and fourth parts evaluated on concrete
states with one live reference and with a stale mapping. -/
theorem C2_lazy_unmap_witness :
    (drm_gem_vram_kunmap_locked gLive).2.kmap = gLive.kmap ∧
    (gLive.kmap_use_count = 1 ∧
     drm_gem_vram_kunmap_locked gLive =
       (false, { gLive with kmap_use_count := 0 })) ∧
    (gLive.kmap_use_count ≠ 0 ∧
     drm_gem_vram_bo_driver_move_notify gLive = (true, gLive)) ∧
    (gStale.kmap_use_count = 0 ∧ gStale.kmap.virtual = some 42 ∧
     drm_gem_vram_bo_driver_move_notify gStale =
       (false,
        { gStale with kmap := { virtual := none, iomem := gStale.kmap.iomem } })) :=
  ⟨C2_lazy_unmap_deferred_to_move_notify.1 gLive,
   ⟨rfl, C2_lazy_unmap_deferred_to_move_notify.2.1 gLive rfl⟩,
   ⟨by decide, C2_lazy_unmap_deferred_to_move_notify.2.2.1 gLive (by decide)⟩,
   ⟨rfl, rfl,
    C2_lazy_unmap_deferred_to_move_notify.2.2.2 gStale 42 rfl rfl⟩⟩

/-- C3: on a buffer with a positive pin count, pin with any placement
hint and any validation outcome only increments the pin count and
returns success; placements, tier and mapping state are untouched. -/
theorem C3_pin_reentrant (g : DrmGemVramObject) (pl_flag : Nat) (v : Int)
    (h : 0 < g.pin_count) :
    drm_gem_vram_pin_locked g pl_flag v =
      (0, { g with pin_count := g.pin_count + 1 }) := by
  unfold drm_gem_vram_pin_locked
  simp [show g.pin_count ≠ 0 by omega]

/-- C3 witness: re-pinning the concrete pinned state with a VRAM hint and
a failing validation result still succeeds and only increments. -/
theorem C3_pin_reentrant_witness :
    0 < gPinned1.pin_count ∧
    drm_gem_vram_pin_locked gPinned1 TTM_PL_FLAG_VRAM (-12) =
      (0, { gPinned1 with pin_count := 2 }) :=
  ⟨by decide, C3_pin_reentrant gPinned1 TTM_PL_FLAG_VRAM (-12) (by decide)⟩

/-- C4: on an unpinned buffer, a failing placement validation makes pin
return that error with the pin count still 0. -/
theorem C4_pin_failure_atomic (g : DrmGemVramObject) (pl_flag : Nat)
    (v : Int) (h0 : g.pin_count = 0) (hv : v < 0) :
    (drm_gem_vram_pin_locked g pl_flag v).1 = v ∧
    (drm_gem_vram_pin_locked g pl_flag v).2.pin_count = 0 := by
  unfold drm_gem_vram_pin_locked
  by_cases hpl : pl_flag ≠ 0 <;>
    simp [h0, hv, hpl, drm_gem_vram_placement]

/-- C4 witness: pinning the concrete unpinned state with a failing
validation returns the error and leaves the pin count 0. -/
theorem C4_pin_failure_atomic_witness :
    gZero.pin_count = 0 ∧ (-12 : Int) < 0 ∧
    (drm_gem_vram_pin_locked gZero TTM_PL_FLAG_VRAM (-12)).1 = -12 ∧
    (drm_gem_vram_pin_locked gZero TTM_PL_FLAG_VRAM (-12)).2.pin_count = 0 :=
  ⟨rfl, by decide,
   (C4_pin_failure_atomic gZero TTM_PL_FLAG_VRAM (-12) rfl (by decide)).1,
   (C4_pin_failure_atomic gZero TTM_PL_FLAG_VRAM (-12) rfl (by decide)).2⟩

/-- C5: over every sequence of locked operations a non-negative pin count
stays non-negative, and unpin on a zero pin count is rejected: it warns,
returns 0 and performs no decrement. -/
theorem C5_pin_count_never_negative :
    (∀ (g : DrmGemVramObject) (ops : List VramOp), 0 ≤ g.pin_count →
        0 ≤ (runVramOps g ops).pin_count) ∧
    (∀ (g : DrmGemVramObject) (v : Int), g.pin_count = 0 →
        drm_gem_vram_unpin_locked g v = (true, 0, g)) := by
  constructor
  · exact fun g ops h => runVramOps_pin_nonneg ops g h
  · intro g v h
    unfold drm_gem_vram_unpin_locked
    simp [h]

/-- C5 witness: a concrete pin/unpin/unpin sequence from the fresh state
keeps the pin count non-negative, and a lone unpin on the fresh state is
rejected unchanged. -/
theorem C5_pin_count_never_negative_witness :
    (0 ≤ gZero.pin_count ∧
     0 ≤ (runVramOps gZero
        [VramOp.pinOp 0 0, VramOp.unpinOp 0, VramOp.unpinOp 0]).pin_count) ∧
    (gZero.pin_count = 0 ∧
     drm_gem_vram_unpin_locked gZero (-1) = (true, 0, gZero)) :=
  ⟨⟨by decide,
    C5_pin_count_never_negative.1 gZero
      [VramOp.pinOp 0 0, VramOp.unpinOp 0, VramOp.unpinOp 0] (by decide)⟩,
   ⟨rfl, C5_pin_count_never_negative.2 gZero (-1) rfl⟩⟩

/-- C6: a successful vmap followed by the matching vunmap restores both
the pin count and the mapping use count to their pre-call values, and
when the kmap step of vmap fails the pin taken by vmap is unwound before
the error is returned. -/
theorem C6_vmap_vunmap_round_trip :
    (∀ (g : DrmGemVramObject) (pv : Int) (k : Except Int (Nat × Bool))
        (uv uv2 : Int) (a : Nat),
        0 ≤ g.pin_count →
        (drm_gem_vram_object_vmap g 0 pv k uv).1 = Except.ok (some a) →
        (drm_gem_vram_object_vunmap
            (drm_gem_vram_object_vmap g 0 pv k uv).2 0 uv2).pin_count =
          g.pin_count ∧
        (drm_gem_vram_object_vunmap
            (drm_gem_vram_object_vmap g 0 pv k uv).2 0 uv2).kmap_use_count =
          g.kmap_use_count) ∧
    (∀ (g : DrmGemVramObject) (pv uv e : Int),
        0 ≤ g.pin_count → 0 ≤ pv → g.kmap_use_count = 0 →
        g.kmap.virtual = none →
        (drm_gem_vram_object_vmap g 0 pv (Except.error e) uv).1 =
          Except.error e ∧
        (drm_gem_vram_object_vmap g 0 pv (Except.error e) uv).2.pin_count =
          g.pin_count) := by
  constructor
  · intro g pv k uv uv2 a hp h
    obtain ⟨h1, h2⟩ := vmap_ok_state g pv uv k a h
    obtain ⟨h3, h4⟩ :=
      vunmap_counts (drm_gem_vram_object_vmap g 0 pv k uv).2 uv2
        (by rw [h2]; omega) (by rw [h1]; omega)
    constructor
    · rw [h3, h1]; omega
    · rw [h4, h2]; omega
  · intro g pv uv e hp hpv hu hv
    exact vmap_err_unwind g pv uv e hp hpv hu hv

/-- C6 witness: a concrete successful vmap/vunmap pair on the pinned
state restores both counts, and a concrete failing kmap step on the
fresh state unwinds the pin. -/
theorem C6_vmap_vunmap_round_trip_witness :
    (0 ≤ gPinned1.pin_count ∧
     (drm_gem_vram_object_vmap gPinned1 0 0 (Except.ok (77, true)) 0).1 =
       Except.ok (some 77) ∧
     (drm_gem_vram_object_vunmap
         (drm_gem_vram_object_vmap gPinned1 0 0
             (Except.ok (77, true)) 0).2 0 0).pin_count =
       gPinned1.pin_count ∧
     (drm_gem_vram_object_vunmap
         (drm_gem_vram_object_vmap gPinned1 0 0
             (Except.ok (77, true)) 0).2 0 0).kmap_use_count =
       gPinned1.kmap_use_count) ∧
    (0 ≤ gZero.pin_count ∧ (0 : Int) ≤ 0 ∧ gZero.kmap_use_count = 0 ∧
     gZero.kmap.virtual = none ∧
     (drm_gem_vram_object_vmap gZero 0 0 (Except.error (-12)) 0).1 =
       Except.error (-12) ∧
     (drm_gem_vram_object_vmap gZero 0 0
         (Except.error (-12)) 0).2.pin_count = gZero.pin_count) :=
  ⟨⟨by decide, rfl,
    (C6_vmap_vunmap_round_trip.1 gPinned1 0 (Except.ok (77, true)) 0 0 77
      (by decide) rfl).1,
    (C6_vmap_vunmap_round_trip.1 gPinned1 0 (Except.ok (77, true)) 0 0 77
      (by decide) rfl).2⟩,
   ⟨by decide, by decide, rfl, rfl,
    (C6_vmap_vunmap_round_trip.2 gZero 0 0 (-12) (by decide) (by decide)
      rfl rfl).1,
    (C6_vmap_vunmap_round_trip.2 gZero 0 0 (-12) (by decide) (by decide)
      rfl rfl).2⟩⟩

/-- C7: over every sequence of kmap/kunmap/move (and pin/unpin)
operations, a positive mapping use count implies a present virtual
address; a cache with use count 0 may hold a stale address or none. -/
theorem C7_mapping_cache_invariant_all_ops (g : DrmGemVramObject)
    (ops : List VramOp) (h : mappingCacheInv g) :
    mappingCacheInv (runVramOps g ops) :=
  runVramOps_mapInv ops g h

/-- C7 witness: the invariant carried across a concrete
kunmap/move/kmap sequence from the live state. -/
theorem C7_mapping_cache_invariant_witness :
    mappingCacheInv gLive ∧
    mappingCacheInv (runVramOps gLive
      [VramOp.kunmapOp, VramOp.moveNotifyOp,
       VramOp.kmapOp true false (Except.ok (7, true))]) :=
  ⟨fun _ => rfl,
   C7_mapping_cache_invariant_all_ops gLive
     [VramOp.kunmapOp, VramOp.moveNotifyOp,
      VramOp.kmapOp true false (Except.ok (7, true))] (fun _ => rfl)⟩

/-- C8 counterexample: at width 2^31, height 1, bpp 16 the 32-bit pitch
multiplication wraps to 0, so the code fails with -EINVAL, while the
spec formula yields the non-zero pitch 2^32 and size 2^32 and therefore
promises success. -/
theorem C8_create_dumb_counterexample :
    drm_gem_vram_fill_create_dumb (2 ^ 31) 1 16 (Except.ok ())
        (Except.ok 1) = Except.error (-22) ∧
    fill_create_dumb_spec (2 ^ 31) 1 16 = Except.ok (2 ^ 32, 2 ^ 32) := by
  constructor <;> rfl

/-- C8 (amended): with the pitch multiplication carried out in 32-bit
arithmetic, the helper fails with -EINVAL exactly when the page-rounded
size is 0, otherwise (with creation and handle registration succeeding)
returns the handle, the wrapped pitch and the rounded size; the concrete
scenario 100 x 50 at 32 bpp yields pitch 400 and size 20480. -/
theorem C8_create_dumb_arith (w h b hd : Nat) (_hw : w < 2 ^ 32)
    (_hh : h < 2 ^ 32) (_hb : b < 2 ^ 32) :
    (dumbSize w h b = 0 →
        ∀ (cr : Except Int Unit) (hr : Except Int Nat),
          drm_gem_vram_fill_create_dumb w h b cr hr = Except.error (-22)) ∧
    (dumbSize w h b ≠ 0 →
        drm_gem_vram_fill_create_dumb w h b (Except.ok ()) (Except.ok hd) =
          Except.ok (hd, dumbPitch w b, dumbSize w h b)) ∧
    drm_gem_vram_fill_create_dumb 100 50 32 (Except.ok ()) (Except.ok hd) =
      Except.ok (hd, 400, 20480) := by
  refine ⟨fun h0 cr hr => ?_, fun h0 => ?_, ?_⟩
  · unfold dumbSize at h0
    simp only [drm_gem_vram_fill_create_dumb, h0, ite_true, if_pos]
  · unfold dumbSize at h0
    simp only [drm_gem_vram_fill_create_dumb, dumbSize, h0, ite_false,
      if_neg]
  · rfl

/-- C8 witness: the amended statement applied to the concrete scenario
inputs. -/
theorem C8_create_dumb_arith_witness :
    100 < 2 ^ 32 ∧ 50 < 2 ^ 32 ∧ 32 < 2 ^ 32 ∧
    drm_gem_vram_fill_create_dumb 100 50 32 (Except.ok ()) (Except.ok 7) =
      Except.ok (7, 400, 20480) :=
  ⟨by norm_num, by norm_num, by norm_num,
   (C8_create_dumb_arith 100 50 32 7 (by norm_num) (by norm_num)
     (by norm_num)).2.2⟩

/-- C9 counterexample: destroying a buffer that is still pinned raises no
warning at all, contradicting the claim that an empty pin count is a
checked destruction invariant; only the mapping-cache checks exist. -/
theorem C9_cleanup_checks_counterexample :
    gPinned1.pin_count ≠ 0 ∧
    drm_gem_vram_cleanup_warns gPinned1 = (false, false) ∧
    cleanup_required_checks_spec gPinned1 = true := by
  refine ⟨by decide, rfl, rfl⟩

/-- C9 (amended): at destruction only the mapping cache is checked:
cleanup raises no warning exactly when the use count is 0 and no mapping
address is retained, and its checks are independent of the pin count. -/
theorem C9_cleanup_checks_mapping_only :
    (∀ g : DrmGemVramObject,
        drm_gem_vram_cleanup_warns g = (false, false) ↔
          (g.kmap_use_count = 0 ∧ g.kmap.virtual = none)) ∧
    (∀ (g : DrmGemVramObject) (n : Int),
        drm_gem_vram_cleanup_warns { g with pin_count := n } =
          drm_gem_vram_cleanup_warns g) := by
  constructor
  · intro g
    unfold drm_gem_vram_cleanup_warns
    rw [Prod.mk.injEq]
    constructor
    · rintro ⟨h1, h2⟩
      refine ⟨by simpa using h1, ?_⟩
      cases hv : g.kmap.virtual
      · rfl
      · rw [hv] at h2
        simp at h2
    · rintro ⟨h1, h2⟩
      simp [h1, h2]
  · intro g n
    rfl

/-- C9 witness: the amended statement evaluated at the fresh state and at
the fresh state with an artificial pin count of 5. -/
theorem C9_cleanup_checks_mapping_only_witness :
    (drm_gem_vram_cleanup_warns gZero = (false, false) ↔
      (gZero.kmap_use_count = 0 ∧ gZero.kmap.virtual = none)) ∧
    drm_gem_vram_cleanup_warns { gZero with pin_count := 5 } =
      drm_gem_vram_cleanup_warns gZero :=
  ⟨C9_cleanup_checks_mapping_only.1 gZero,
   C9_cleanup_checks_mapping_only.2 gZero 5⟩

/-- C10: whenever the locked kmap body is given a non-NULL `is_iomem`
out-parameter and answers "not mapped", it writes false through that
out-parameter. -/
theorem C10_kmap_not_mapped_sets_iomem_false (g : DrmGemVramObject)
    (m : Bool) (k : Except Int (Nat × Bool))
    (h : (drm_gem_vram_kmap_locked g m true k).1 = KmapRes.notMapped) :
    (drm_gem_vram_kmap_locked g m true k).2.1 = some false := by
  unfold drm_gem_vram_kmap_locked kmapOut at h ⊢
  by_cases h1 : 0 < g.kmap_use_count <;>
    by_cases h2 : g.kmap.virtual.isSome || !m <;>
      cases k <;>
        cases hv : g.kmap.virtual <;>
          simp_all

/-- C10 witness: the fresh state queried with `map = false` answers "not
mapped" and reports `is_iomem = false`. -/
theorem C10_kmap_not_mapped_sets_iomem_false_witness :
    (drm_gem_vram_kmap_locked gZero false true (Except.error (-5))).1 =
      KmapRes.notMapped ∧
    (drm_gem_vram_kmap_locked gZero false true (Except.error (-5))).2.1 =
      some false :=
  ⟨rfl,
   C10_kmap_not_mapped_sets_iomem_false gZero false (Except.error (-5)) rfl⟩
